import Mathlib

/-!
Shallow embedding of the core of the `OS_1000_lines` kernel
(src/trap.c, src/process.c, src/virtio.c), used to check the
natural-language specification against the code.

Machine integers are modelled as `Nat` with explicit `% 2^w` where
overflow matters; signed 32-bit values are modelled as `Int` via an
explicit two's-complement conversion.  Memory regions handed to the
kernel (user buffers, file data) are modelled as byte maps `Nat → Nat`.
-/

/-! Section: Basic machine-integer helpers -/

/-- Reinterpret an unsigned 32-bit value (a `Nat` already reduced mod `2^32`)
as a signed 32-bit `int`, two's complement. -/
def toSigned32 (x : Nat) : Int :=
  if x % 4294967296 < 2147483648 then ((x % 4294967296 : Nat) : Int)
  else ((x % 4294967296 : Nat) : Int) - 4294967296

/-- Store a signed value into an unsigned 32-bit slot (e.g. `f->a0 = len`
where `len` is an `int` and `a0` a `uint32_t`): two's-complement wrap. -/
def storeU32 (v : Int) : Nat :=
  (v % (4294967296 : Int)).toNat

/-! Section: Trap frame

The field list and order follow the save layout of `kernel_entry`
(src/trap.c): ra, gp, tp, t0-t6, a0-a7, s0-s11, sp — 31 words, each a
`uint32_t`. -/

structure Frame where
  ra : Nat := 0
  gp : Nat := 0
  tp : Nat := 0
  t0 : Nat := 0
  t1 : Nat := 0
  t2 : Nat := 0
  t3 : Nat := 0
  t4 : Nat := 0
  t5 : Nat := 0
  t6 : Nat := 0
  a0 : Nat := 0
  a1 : Nat := 0
  a2 : Nat := 0
  a3 : Nat := 0
  a4 : Nat := 0
  a5 : Nat := 0
  a6 : Nat := 0
  a7 : Nat := 0
  s0 : Nat := 0
  s1 : Nat := 0
  s2 : Nat := 0
  s3 : Nat := 0
  s4 : Nat := 0
  s5 : Nat := 0
  s6 : Nat := 0
  s7 : Nat := 0
  s8 : Nat := 0
  s9 : Nat := 0
  s10 : Nat := 0
  s11 : Nat := 0
  sp : Nat := 0
deriving DecidableEq, Repr

/-! Section: File table

Modelled from the spec: `struct file` lives in a header that is not under
src/ (`fs.h` only declares the interface).  Per spec §3 a file has a
`name` (up to 100 bytes, NUL-terminated), fixed-capacity `data`
(capacity 1024 bytes), a `size`, and an `in_use` flag.  `fs_lookup` is a
linear scan comparing names as NUL-terminated strings (spec §4.4);
`fs_flush` synchronously writes the whole table back to disk. -/

/-- Capacity of `file->data`; spec §3: "data (fixed capacity, e.g. 1024
bytes)". -/
def FILE_DATA_CAP : Nat := 1024

structure File where
  name : List Nat
  data : Nat → Nat
  size : Int
  inUse : Bool

/-- A default file, used only as the `getD` fallback. -/
def dfile : File := ⟨[], fun _ => 0, 0, false⟩

/-- Modelled from the spec: `fs_lookup` (fs.c is not under src/) —
linear scan for the first in-use slot whose name equals `nm`.
Returns the slot index (the C version returns a pointer). -/
def lookupFile (files : List File) (nm : List Nat) : Option Nat :=
  match files with
  | [] => none
  | fl :: rest =>
    if fl.inUse && fl.name == nm then some 0
    else (lookupFile rest nm).map (· + 1)

/-- Read a NUL-terminated byte string from memory, with fuel (names are
at most 100 bytes per spec §3). -/
def readCStr (mem : Nat → Nat) (p : Nat) : Nat → List Nat
  | 0 => []
  | fuel + 1 =>
    let b := mem p
    if b = 0 then [] else b :: readCStr mem (p + 1) fuel

/-- Overlay a list of bytes onto a byte map at `base` (helper to build
concrete user memories). -/
def storeBytes (m : Nat → Nat) (base : Nat) (bs : List Nat) : Nat → Nat :=
  fun a => if base ≤ a ∧ a - base < bs.length then bs.getD (a - base) 0 else m a

/-! Section: Kernel-visible state for syscalls

`mem` is the current user address space seen through the pointers the
syscall dereferences; `inp` is the stream of SBI `getchar` results;
`out` collects `putchar` bytes; `log` collects `printf` diagnostics
(format arguments elided); `disk` is the disk image as rewritten by
`fs_flush` (modelled from the spec as a snapshot of the file table);
`evs` records the length argument (`int len`) of each `memcpy` issued
by the READFILE/WRITEFILE paths. -/

structure St where
  files : List File
  mem : Nat → Nat
  out : List Nat
  log : List String
  inp : List Int
  disk : List File
  evs : List Int

/-- Result of `handle_syscall`: normal return with the (possibly
updated) trap frame and state, a kernel PANIC, divergence (the GETCHAR
poll loop never sees a non-negative character), or process exit
(SYS_EXIT marks the process EXITED and yields, never returning). -/
inductive SysRes where
  | ok : Frame → St → SysRes
  | panic : String → SysRes
  | diverge : SysRes
  | exited : St → SysRes

/-- Syscall numbers, per spec §4.6 (the numeric constants live in a
header not under src/). -/
def SYS_PUTCHAR : Nat := 1
def SYS_GETCHAR : Nat := 2
def SYS_READFILE : Nat := 3
def SYS_WRITEFILE : Nat := 4
def SYS_EXIT : Nat := 5

/-- The GETCHAR polling loop of `handle_syscall` (src/trap.c:22-29):
repeatedly call `getchar`, yielding between polls, until a non-negative
character arrives.  Each iteration consumes one element of the input
stream; an exhausted stream models a console that never delivers. -/
def getcharLoop : List Int → Option (Int × List Int)
  | [] => none
  | ch :: rest => if 0 ≤ ch then some (ch, rest) else getcharLoop rest

/-- The SYS_READFILE / SYS_WRITEFILE shared path of `handle_syscall`
(src/trap.c:32-58).  `int len = f->a2` reinterprets the unsigned
argument as a signed 32-bit int; the clamp `if (len > (int)
sizeof(file->data)) len = file->size;` compares signed; `memcpy`
receives `len` converted to `size_t` (two's-complement wrap).  On
WRITEFILE the file's data and size are updated and `fs_flush`
rewrites the disk; either way `f->a0 = len`. -/
def rwfile (f : Frame) (s : St) : SysRes :=
  let filename := readCStr s.mem f.a0 100
  match lookupFile s.files filename with
  | none =>
    SysRes.ok { f with a0 := storeU32 (-1) }
      { s with log := s.log ++ ["file not found"] }
  | some i =>
    let fl := s.files.getD i dfile
    let len0 := toSigned32 f.a2
    let len : Int := if len0 > (FILE_DATA_CAP : Int) then fl.size else len0
    let n := storeU32 len
    if f.a3 = SYS_WRITEFILE then
      let fl' : File :=
        { fl with
          data := fun k => if k < n then s.mem (f.a1 + k) else fl.data k,
          size := len }
      let files' := s.files.set i fl'
      SysRes.ok { f with a0 := storeU32 len }
        { s with files := files', disk := files', evs := s.evs ++ [len] }
    else
      SysRes.ok { f with a0 := storeU32 len }
        { s with
          mem := fun a =>
            if f.a1 ≤ a ∧ a < f.a1 + n then fl.data (a - f.a1) else s.mem a,
          evs := s.evs ++ [len] }

/-- `handle_syscall` (src/trap.c:14-75): dispatch on `f->a3`. -/
def handle_syscall (f : Frame) (s : St) : SysRes :=
  if f.a3 = SYS_PUTCHAR then
    SysRes.ok f { s with out := s.out ++ [f.a0 % 256] }
  else if f.a3 = SYS_GETCHAR then
    match getcharLoop s.inp with
    | some (ch, rest) =>
      SysRes.ok { f with a0 := storeU32 ch } { s with inp := rest }
    | none => SysRes.diverge
  else if f.a3 = SYS_READFILE ∨ f.a3 = SYS_WRITEFILE then
    rwfile f s
  else if f.a3 = SYS_EXIT then
    SysRes.exited { s with log := s.log ++ ["process exited"] }
  else
    SysRes.panic "unexpected syscall"

/-- `scause` value for an environment call from U-mode. -/
def SCAUSE_ECALL : Nat := 8

/-- Result of `handle_trap`: an `sret` back to the process with the
restored frame and the `sepc` value written back, a PANIC, or the
divergence/exit outcomes propagated from `handle_syscall`. -/
inductive TrapRes where
  | sret : Frame → St → Nat → TrapRes
  | panic : String → TrapRes
  | diverge : TrapRes
  | exited : St → TrapRes

/-- `handle_trap` (src/trap.c:77-92): on `scause == 8` dispatch to
`handle_syscall` and advance `sepc` by 4 (32-bit CSR arithmetic);
otherwise PANIC. -/
def handle_trap (f : Frame) (s : St) (scause sepc : Nat) : TrapRes :=
  if scause = SCAUSE_ECALL then
    match handle_syscall f s with
    | SysRes.ok f' s' => TrapRes.sret f' s' ((sepc + 4) % 4294967296)
    | SysRes.panic m => TrapRes.panic m
    | SysRes.diverge => TrapRes.diverge
    | SysRes.exited s' => TrapRes.exited s'
  else
    TrapRes.panic "unexpected trap"

/-! Subsection: Observation helpers on syscall results -/

def resFrame : SysRes → Option Frame
  | SysRes.ok f _ => some f
  | _ => none

def resSt : SysRes → Option St
  | SysRes.ok _ s => some s
  | _ => none

def resA0 (r : SysRes) : Option Nat := (resFrame r).map Frame.a0

def resEvs (r : SysRes) : Option (List Int) := (resSt r).map St.evs

def resFileSize (i : Nat) (r : SysRes) : Option Int :=
  (resSt r).map (fun s => (s.files.getD i dfile).size)

/-! Section: Process table and the `yield` scheduler (src/process.c)

`PROCS_MAX` is defined in a header not under src/ and the spec gives no
numeric value, so the process table is modelled as a list whose length
plays the role of `PROCS_MAX`.  A slot carries the fields `yield`
inspects: `pid` and `state`. -/

inductive PState where
  | UNUSED
  | RUNNABLE
  | EXITED
deriving DecidableEq, Repr

structure PEntry where
  pid : Nat
  state : PState
deriving DecidableEq, Repr

/-- Fallback entry for out-of-range indexing (never reached for indices
produced by the scan, which are `< procs.length`). -/
def dfltEntry : PEntry := ⟨0, PState.UNUSED⟩

/-- The loop body's candidate test (src/process.c:139):
`proc->state == PROC_RUNNABLE && proc->pid > 0`. -/
def yieldPred (e : PEntry) : Bool :=
  e.state == PState.RUNNABLE && decide (0 < e.pid)

/-- The scan loop of `yield` (src/process.c:137-143):
`for (i = 0; i < PROCS_MAX; i++)` examines slot
`(current_proc->pid + i) % PROCS_MAX` and breaks at the first slot
satisfying `yieldPred`.  `fuel` counts the remaining iterations. -/
def yieldGo (procs : List PEntry) (curPid : Nat) (i : Nat) : Nat → Option Nat
  | 0 => none
  | fuel + 1 =>
    let j := (curPid + i) % procs.length
    if yieldPred (procs.getD j dfltEntry) then some j
    else yieldGo procs curPid (i + 1) fuel

/-- Slot selected by `yield`'s scan, or `none` when no candidate was
found (in which case `next` stays `idle_proc`). -/
def yieldPick (procs : List PEntry) (curPid : Nat) : Option Nat :=
  yieldGo procs curPid 0 procs.length

/-- The `next` process chosen by `yield`, as a slot index:
`struct process *next = idle_proc;` is the default, overwritten by the
first scan hit. -/
def yieldNext (procs : List PEntry) (curPid idleSlot : Nat) : Nat :=
  (yieldPick procs curPid).getD idleSlot

/-- The scan as the specification words it (spec §4.5 step 1 / claim
C4): indices `(current_proc->pid + i) % PROCS_MAX` for
`i = 1 .. PROCS_MAX-1` in that order.  This definition follows the
spec's words, for comparison with `yieldPick` above, which follows the
source. -/
def yieldPickSpec (procs : List PEntry) (curPid : Nat) : Option Nat :=
  (((List.range (procs.length - 1)).map
      (fun i => (curPid + 1 + i) % procs.length)).find?
    (fun j => yieldPred (procs.getD j dfltEntry)))

/-! Section: Virtio-blk device initialization (src/virtio.c)

MMIO register offsets and status bits are defined in a header not under
src/; their values are modelled from spec §6.  Writes go through a
register file (`regs`) that remembers the last value written — this is
what `virtio_reg_fetch_and_or32` reads back — and a `writes` trace
records every 32-bit register write in program order. -/

def PAGE_SIZE : Nat := 4096
def SECTOR_SIZE : Nat := 512
def VIRTIO_REG_MAGIC : Nat := 0x00
def VIRTIO_REG_VERSION : Nat := 0x04
def VIRTIO_REG_DEVICE_ID : Nat := 0x08
def VIRTIO_REG_QUEUE_SEL : Nat := 0x30
def VIRTIO_REG_QUEUE_NUM : Nat := 0x38
def VIRTIO_REG_QUEUE_ALIGN : Nat := 0x3c
def VIRTIO_REG_QUEUE_PFN : Nat := 0x40
def VIRTIO_REG_QUEUE_NOTIFY : Nat := 0x50
def VIRTIO_REG_DEVICE_STATUS : Nat := 0x70
def VIRTIO_STATUS_ACK : Nat := 1
def VIRTIO_STATUS_DRIVER : Nat := 2
def VIRTIO_STATUS_DRIVER_OK : Nat := 4
def VIRTIO_STATUS_FEAT_OK : Nat := 8
def VIRTIO_DEVICE_BLK : Nat := 2

/-- Modelled from the spec: `VIRTQ_ENTRY_NUM` (header not under src/);
spec §3: "a descriptor table of 16 entries". -/
def VIRTQ_ENTRY_NUM : Nat := 16

/-- Read-only identity registers and config of the attached device. -/
structure VirtioDev where
  magic : Nat
  version : Nat
  devId : Nat
  capacitySectors : Nat
deriving DecidableEq, Repr

structure MmioState where
  regs : Nat → Nat
  writes : List (Nat × Nat)

/-- MMIO state before `virtio_blk_init` runs. -/
def mmio0 : MmioState := ⟨fun _ => 0, []⟩

/-- `virtio_reg_write32` (src/virtio.c:19-21). -/
def wr32 (s : MmioState) (off v : Nat) : MmioState :=
  ⟨fun o => if o = off then v else s.regs o, s.writes ++ [(off, v)]⟩

/-- `virtio_reg_fetch_and_or32` (src/virtio.c:23-25): read the register
back and write the OR. -/
def fetchAndOr32 (s : MmioState) (off v : Nat) : MmioState :=
  wr32 s off (Nat.lor (s.regs off) v)

/-- `virtq_init` (src/virtio.c:28-45): select queue `index`, write the
queue size and used-alignment, then write `virtq_paddr` to QUEUE_PFN.
The virtqueue memory itself comes from `alloc_pages` (out of scope), so
its physical address is a parameter; the returned `Nat` is the
`queue_index` field the function stores into the virtqueue. -/
def virtq_init (s : MmioState) (index : Nat) (virtq_paddr : Nat) :
    MmioState × Nat :=
  let s1 := wr32 s VIRTIO_REG_QUEUE_SEL index
  let s2 := wr32 s1 VIRTIO_REG_QUEUE_NUM VIRTQ_ENTRY_NUM
  let s3 := wr32 s2 VIRTIO_REG_QUEUE_ALIGN 0
  let s4 := wr32 s3 VIRTIO_REG_QUEUE_PFN virtq_paddr
  (s4, index)

/-- `virtio_blk_init` (src/virtio.c:66-96): identity checks (PANIC on
mismatch), status sequence reset / ACK / DRIVER / FEAT_OK, virtqueue 0
setup, final DRIVER_OK status write, capacity read (returned in bytes,
`capacitySectors * SECTOR_SIZE`). -/
def virtio_blk_init (dev : VirtioDev) (virtq_paddr : Nat) :
    Except String (MmioState × Nat) :=
  if dev.magic ≠ 0x74726976 then Except.error "virtio: invalid magic value"
  else if dev.version ≠ 1 then Except.error "virtio: invalid version"
  else if dev.devId ≠ VIRTIO_DEVICE_BLK then
    Except.error "virtio: invalid device id"
  else
    let s1 := wr32 mmio0 VIRTIO_REG_DEVICE_STATUS 0
    let s2 := fetchAndOr32 s1 VIRTIO_REG_DEVICE_STATUS VIRTIO_STATUS_ACK
    let s3 := fetchAndOr32 s2 VIRTIO_REG_DEVICE_STATUS VIRTIO_STATUS_DRIVER
    let s4 := fetchAndOr32 s3 VIRTIO_REG_DEVICE_STATUS VIRTIO_STATUS_FEAT_OK
    let s5 := (virtq_init s4 0 virtq_paddr).fst
    let s6 := wr32 s5 VIRTIO_REG_DEVICE_STATUS VIRTIO_STATUS_DRIVER_OK
    Except.ok (s6, dev.capacitySectors * SECTOR_SIZE)

/-- Value of the DEVICE_STATUS register once `virtio_blk_init` returns
(the device is passive in this model: reads return the last value
written). -/
def statusAfter (dev : VirtioDev) (virtq_paddr : Nat) : Option Nat :=
  match virtio_blk_init dev virtq_paddr with
  | Except.ok (s, _) => some (s.regs VIRTIO_REG_DEVICE_STATUS)
  | Except.error _ => none

/-- The full register-write trace of `virtio_blk_init`. -/
def writesAfter (dev : VirtioDev) (virtq_paddr : Nat) :
    Option (List (Nat × Nat)) :=
  match virtio_blk_init dev virtq_paddr with
  | Except.ok (s, _) => some s.writes
  | Except.error _ => none

/-- The value the initialization writes to the QUEUE_PFN register. -/
def pfnWritten (dev : VirtioDev) (virtq_paddr : Nat) : Option Nat :=
  match virtio_blk_init dev virtq_paddr with
  | Except.ok (s, _) =>
    (s.writes.find? (fun w => w.fst = VIRTIO_REG_QUEUE_PFN)).map Prod.snd
  | Except.error _ => none

/-- A device passing all three identity checks, for concrete runs. -/
def goodDev : VirtioDev := ⟨0x74726976, 1, 2, 32⟩

/-! Section: Virtqueue request path (src/virtio.c:51-57, 98-147)

The virtqueue layout constants come from the header not under src/ and
are modelled from spec §3/§6: descriptor flags NEXT=1, WRITE=2; the
`virtio_blk_req` layout is header `{type : u32, reserved : u32,
sector : u64}` (16 bytes), then `data[512]` at offset 16, then
`status : u8` at offset 528.  `avail.index` and `last_used_index` are
`uint16_t`.  The device side is an oracle: given the request direction,
sector, and the request's data area, it yields the status byte it
writes and, for reads, the data it deposits; the busy-wait loop
(src/virtio.c:134-135) terminates with `used.index` caught up to
`last_used_index`. -/

def VIRTQ_DESC_F_NEXT : Nat := 1
def VIRTQ_DESC_F_WRITE : Nat := 2
def VIRTIO_BLK_T_IN : Nat := 0
def VIRTIO_BLK_T_OUT : Nat := 1

/-- Modelled from the spec: byte offset of `data` in
`struct virtio_blk_req` (header `{type, reserved, sector}` is 16
bytes). -/
def BLK_REQ_DATA_OFF : Nat := 16

/-- Modelled from the spec: byte offset of `status` in
`struct virtio_blk_req` (16-byte header plus 512 data bytes). -/
def BLK_REQ_STATUS_OFF : Nat := 528

structure VDesc where
  addr : Nat
  len : Nat
  flags : Nat
  next : Nat
deriving DecidableEq, Repr

structure Virtq where
  descs : Nat → VDesc
  availIndex : Nat
  availRing : Nat → Nat
  usedIndex : Nat
  lastUsedIndex : Nat
  queueIndex : Nat

structure BlkReq where
  typ : Nat
  sector : Nat
  data : Nat → Nat
  status : Nat

/-- Device oracle: direction and sector of the request plus the request
data area, yielding the status byte and (for reads) the bytes the
device writes into the data descriptor. -/
def DevModel : Type := Bool → Nat → (Nat → Nat) → Nat × (Nat → Nat)

/-- Result of one `read_write_disk` call: the caller's buffer after the
call, the virtqueue, the shared request buffer, the `printf`
diagnostics, and the values written to QUEUE_NOTIFY (the function
returns `void` — there is no error result). -/
structure DiskResult where
  buf : Nat → Nat
  vq : Virtq
  req : BlkReq
  logs : List String
  notifies : List Nat

/-- `read_write_disk` (src/virtio.c:98-147).  The bounds check uses the
code's condition `sector >= blk_capacity / SECTOR_SIZE`; `cap` is
`blk_capacity` in bytes.  Buffers are byte maps indexed from 0. -/
def read_write_disk (cap : Nat) (dev : DevModel) (vq : Virtq)
    (reqPaddr : Nat) (req : BlkReq) (buf : Nat → Nat) (sector : Nat)
    (is_write : Bool) : DiskResult :=
  if sector ≥ cap / SECTOR_SIZE then
    ⟨buf, vq, req, ["virtio: sector out of range"], []⟩
  else
    -- Populate the shared request: sector, type, and on writes the data.
    let req1 : BlkReq :=
      { req with
        sector := sector,
        typ := if is_write then VIRTIO_BLK_T_OUT else VIRTIO_BLK_T_IN,
        data := if is_write
          then (fun k => if k < SECTOR_SIZE then buf k else req.data k)
          else req.data }
    -- Three-descriptor chain at slots 0, 1, 2.
    let d0 : VDesc := ⟨reqPaddr, 16, VIRTQ_DESC_F_NEXT, 1⟩
    let d1 : VDesc :=
      ⟨reqPaddr + BLK_REQ_DATA_OFF, SECTOR_SIZE,
        Nat.lor VIRTQ_DESC_F_NEXT (if is_write then 0 else VIRTQ_DESC_F_WRITE),
        2⟩
    let d2 : VDesc :=
      { addr := reqPaddr + BLK_REQ_STATUS_OFF, len := 1,
        flags := VIRTQ_DESC_F_WRITE, next := (vq.descs 2).next }
    let descs' := fun j =>
      if j = 0 then d0 else if j = 1 then d1 else if j = 2 then d2
      else vq.descs j
    -- virtq_kick vq 0 (src/virtio.c:51-57), then the device completes.
    let ring' := fun k =>
      if k = vq.availIndex % VIRTQ_ENTRY_NUM then 0 else vq.availRing k
    let availIndex' := (vq.availIndex + 1) % 65536
    let lastUsed' := (vq.lastUsedIndex + 1) % 65536
    let devOut := dev is_write sector req1.data
    let req2 : BlkReq :=
      { req1 with
        status := devOut.fst,
        data := if is_write then req1.data else devOut.snd }
    let vq' : Virtq :=
      { vq with
        descs := descs', availRing := ring', availIndex := availIndex',
        lastUsedIndex := lastUsed', usedIndex := lastUsed' }
    if devOut.fst ≠ 0 then
      ⟨buf, vq', req2, ["virtio: warn: failed to read/write sector"],
        [vq.queueIndex]⟩
    else
      ⟨(if is_write then buf
        else fun a => if a < SECTOR_SIZE then req2.data a else buf a),
        vq', req2, [], [vq.queueIndex]⟩

/-! Section: Concrete scenario for claim C1 (spec §8 S2)

`SYS_WRITEFILE("hello.txt", "world", 5)` followed by
`SYS_READFILE("hello.txt", buf, 100)`.  The file exists (created from
the TAR image at boot); its prior contents are all zero bytes.  The
filename lives at user address 1000, the string "world" at 2000, and
the read buffer at 3000. -/

def nameBytes : List Nat := [104, 101, 108, 108, 111, 46, 116, 120, 116]

def worldBytes : List Nat := [119, 111, 114, 108, 100]

def c1mem : Nat → Nat :=
  storeBytes (storeBytes (fun _ => 0) 1000 nameBytes) 2000 worldBytes

def c1file : File := ⟨nameBytes, fun _ => 0, 0, true⟩

def c1st : St := ⟨[c1file], c1mem, [], [], [], [c1file], []⟩

def c1fW : Frame := { a0 := 1000, a1 := 2000, a2 := 5, a3 := 4 }

def c1fR : Frame := { a0 := 1000, a1 := 3000, a2 := 100, a3 := 3 }

/-- Run the write syscall then the read syscall; observe the read's
return value (`a0`) and the first five bytes of the read buffer. -/
def c1run : Option (Nat × List Nat) :=
  match handle_syscall c1fW c1st with
  | SysRes.ok _ s1 =>
    match handle_syscall c1fR s1 with
    | SysRes.ok f2 s2 =>
      some (f2.a0, (List.range 5).map (fun i => s2.mem (3000 + i)))
    | _ => none
  | _ => none

/-! Section: Theorems -/

/-- C1, counterexample.  The claim states that after
`SYS_WRITEFILE("hello.txt", "world", 5)`, a
`SYS_READFILE("hello.txt", buf, 100)` returns 5 in `a0`.  It does not:
the clamp in src/trap.c:45 fires only when the requested length exceeds
the 1024-byte slot capacity, so the requested length 100 is returned
unchanged. -/
theorem C1_counterexample : ¬ c1run.map Prod.fst = some 5 := by decide

/-- C1, amended.  After `SYS_WRITEFILE("hello.txt", "world", 5)` on an
existing file, `SYS_READFILE("hello.txt", buf, 100)` returns 100 in
`a0` (the requested length, unclamped because 100 does not exceed the
1024-byte slot capacity), and the first 5 bytes of `buf` equal
"world". -/
theorem C1_theorem : c1run = some (100, worldBytes) := by decide

/-- C2, counterexample.  The claim states the value written to
QUEUE_PFN is the virtqueue's physical address divided by PAGE_SIZE.
The code (src/virtio.c:43) writes the physical address itself: with the
virtqueue at physical address 8192, the value written is 8192, not
8192 / 4096 = 2. -/
theorem C2_counterexample :
    pfnWritten goodDev 8192 = some 8192
    ∧ ¬ pfnWritten goodDev 8192 = some (8192 / PAGE_SIZE) := by decide

/-- C2, amended.  During virtio-blk initialization, after writing
QUEUE_SEL=0, QUEUE_NUM=16 and QUEUE_ALIGN=0, the value written to the
QUEUE_PFN register is the virtqueue's physical address itself (not
divided by PAGE_SIZE): the full register-write trace is reset/ACK/
DRIVER/FEAT_OK on DEVICE_STATUS, then the four queue writes with
QUEUE_PFN receiving `virtq_paddr`, then the DRIVER_OK status write. -/
theorem C2_theorem (dev : VirtioDev) (paddr : Nat)
    (hm : dev.magic = 0x74726976) (hv : dev.version = 1)
    (hd : dev.devId = VIRTIO_DEVICE_BLK) :
    writesAfter dev paddr = some
      [(VIRTIO_REG_DEVICE_STATUS, 0), (VIRTIO_REG_DEVICE_STATUS, 1),
       (VIRTIO_REG_DEVICE_STATUS, 3), (VIRTIO_REG_DEVICE_STATUS, 11),
       (VIRTIO_REG_QUEUE_SEL, 0), (VIRTIO_REG_QUEUE_NUM, VIRTQ_ENTRY_NUM),
       (VIRTIO_REG_QUEUE_ALIGN, 0), (VIRTIO_REG_QUEUE_PFN, paddr),
       (VIRTIO_REG_DEVICE_STATUS, VIRTIO_STATUS_DRIVER_OK)]
    ∧ pfnWritten dev paddr = some paddr := by
  unfold writesAfter pfnWritten virtio_blk_init
  rw [if_neg (not_not_intro hm), if_neg (not_not_intro hv),
    if_neg (not_not_intro hd)]
  exact ⟨rfl, rfl⟩

/-- C2, witness: the amended trace at a concrete device and virtqueue
address. -/
theorem C2_witness :
    goodDev.magic = 0x74726976
    ∧ (writesAfter goodDev 8192 = some
        [(VIRTIO_REG_DEVICE_STATUS, 0), (VIRTIO_REG_DEVICE_STATUS, 1),
         (VIRTIO_REG_DEVICE_STATUS, 3), (VIRTIO_REG_DEVICE_STATUS, 11),
         (VIRTIO_REG_QUEUE_SEL, 0), (VIRTIO_REG_QUEUE_NUM, VIRTQ_ENTRY_NUM),
         (VIRTIO_REG_QUEUE_ALIGN, 0), (VIRTIO_REG_QUEUE_PFN, 8192),
         (VIRTIO_REG_DEVICE_STATUS, VIRTIO_STATUS_DRIVER_OK)]
      ∧ pfnWritten goodDev 8192 = some 8192) :=
  ⟨rfl, C2_theorem goodDev 8192 rfl rfl rfl⟩

/-- C3, counterexample.  The claim states DRIVER_OK is OR-ed into
DEVICE_STATUS, leaving ACK|DRIVER|FEAT_OK|DRIVER_OK = 15 after
initialization.  The code (src/virtio.c:87) instead performs a plain
write of DRIVER_OK, so the status register ends at 4, not 15. -/
theorem C3_counterexample :
    statusAfter goodDev 8192 = some 4
    ∧ ¬ statusAfter goodDev 8192 = some 15 := by decide

/-- C3, amended.  In the final step of virtio-blk initialization,
DRIVER_OK (4) is written directly to the DEVICE_STATUS register (a
plain write, not a fetch-and-or), so after initialization the status
register holds exactly DRIVER_OK = 4, the previously set bits
ACK=1, DRIVER=2, FEAT_OK=8 having been overwritten. -/
theorem C3_theorem (dev : VirtioDev) (paddr : Nat)
    (hm : dev.magic = 0x74726976) (hv : dev.version = 1)
    (hd : dev.devId = VIRTIO_DEVICE_BLK) :
    statusAfter dev paddr = some VIRTIO_STATUS_DRIVER_OK := by
  unfold statusAfter virtio_blk_init
  rw [if_neg (not_not_intro hm), if_neg (not_not_intro hv),
    if_neg (not_not_intro hd)]
  rfl

/-- C3, witness: the amended status value at a concrete device. -/
theorem C3_witness :
    goodDev.magic = 0x74726976
    ∧ statusAfter goodDev 8192 = some VIRTIO_STATUS_DRIVER_OK :=
  ⟨rfl, C3_theorem goodDev 8192 rfl rfl rfl⟩

/-- A process table for the two-process scenario of claim C4 (spec S4):
A with pid 1 in slot 0, B with pid 2 in slot 1, the remaining slots
unused (the slot count standing in for `PROCS_MAX` is 8). -/
def c4procs : List PEntry :=
  [⟨1, PState.RUNNABLE⟩, ⟨2, PState.RUNNABLE⟩, ⟨0, PState.UNUSED⟩,
   ⟨0, PState.UNUSED⟩, ⟨0, PState.UNUSED⟩, ⟨0, PState.UNUSED⟩,
   ⟨0, PState.UNUSED⟩, ⟨0, PState.UNUSED⟩]

/-- The scan loop of `yield` is the first-match search over the index
sequence `(curPid + i) % PROCS_MAX` for `i` ascending through the fuel
many values starting at `i`. -/
theorem yieldGo_eq_find (procs : List PEntry) (curPid : Nat) (fuel : Nat) :
    ∀ i, yieldGo procs curPid i fuel =
      ((List.range fuel).map
          (fun k => (curPid + i + k) % procs.length)).find?
        (fun j => yieldPred (procs.getD j dfltEntry)) := by
  induction fuel with
  | zero => intro i; rfl
  | succ n ih =>
    intro i
    have hfun : ((fun k => (curPid + i + k) % procs.length) ∘ Nat.succ)
        = (fun k => (curPid + (i + 1) + k) % procs.length) := by
      funext k
      simp only [Function.comp]
      congr 1
      omega
    rw [List.range_succ_eq_map, List.map_cons, List.map_map, hfun]
    show (if yieldPred
            (procs.getD ((curPid + i) % procs.length) dfltEntry)
          then some ((curPid + i) % procs.length)
          else yieldGo procs curPid (i + 1) n) = _
    rw [ih (i + 1)]
    simp only [Nat.add_zero, List.find?]
    cases hp : yieldPred
        (procs.getD ((curPid + i) % procs.length) dfltEntry) <;> simp [hp]

/-- First-match searches succeed when some member satisfies the
predicate. -/
theorem findSomeOfMem {α : Type} (p : α → Bool) :
    ∀ (l : List α) (a : α), a ∈ l → p a = true → (l.find? p).isSome := by
  intro l
  induction l with
  | nil => intro a ha; cases ha
  | cons b t ih =>
    intro a ha hp
    rw [List.find?]
    cases hb : p b with
    | true => rfl
    | false =>
      rcases List.mem_cons.mp ha with h | h
      · subst h; rw [hp] at hb; cases hb
      · exact ih a h hp

/-- C4, counterexample.  The claim describes the scan as examining
indices `(current_proc->pid + i) % PROCS_MAX` for `i = 1 .. PROCS_MAX-1`.
The code (src/process.c:137) iterates `i = 0 .. PROCS_MAX-1`, which
also examines slot `pid % PROCS_MAX` first.  With A (pid 1, slot 0) and
B (pid 2, slot 1) both runnable, a yield by A selects slot 1 (B) under
the code's scan, while the claimed scan order would select slot 0 (A
itself): the two selection functions differ at this input. -/
theorem C4_counterexample :
    yieldPick c4procs 1 = some 1
    ∧ yieldPickSpec c4procs 1 = some 0
    ∧ ¬ yieldPick c4procs 1 = yieldPickSpec c4procs 1 := by decide

/-- C4, amended.  For every call to yield, the scheduler examines
process slots at indices `(current_proc->pid + i) % PROCS_MAX` for
`i = 0 .. PROCS_MAX-1` in that order, selecting the first slot whose
state is RUNNABLE and whose pid is positive (defaulting to the idle
process when the scan finds none); in particular, with processes A
(pid 1) and B (pid 2) both runnable, a yield by A selects B's slot and
a yield by B selects A's slot. -/
theorem C4_theorem :
    (∀ (procs : List PEntry) (curPid : Nat),
      yieldPick procs curPid =
        ((List.range procs.length).map
            (fun i => (curPid + i) % procs.length)).find?
          (fun j => yieldPred (procs.getD j dfltEntry)))
    ∧ yieldPick c4procs 1 = some 1 ∧ yieldPick c4procs 2 = some 0 := by
  refine ⟨fun procs curPid => ?_, by decide, by decide⟩
  rw [yieldPick, yieldGo_eq_find]
  simp only [Nat.add_zero]

/-- C5.  Whenever some slot of the process table is RUNNABLE with a
positive pid, `yield`'s scan finds such a slot (the scan's `PROCS_MAX`
offsets cover every slot), so `next` is overwritten away from its
`idle_proc` default and the idle process — pid 0 — is never the one
selected. -/
theorem C5_theorem (procs : List PEntry) (curPid idleSlot j : Nat)
    (hj : j < procs.length)
    (hpred : yieldPred (procs.getD j dfltEntry) = true)
    (hidle : (procs.getD idleSlot dfltEntry).pid = 0) :
    ∃ k, yieldPick procs curPid = some k
      ∧ yieldPred (procs.getD k dfltEntry) = true
      ∧ yieldNext procs curPid idleSlot = k ∧ ¬ k = idleSlot := by
  have hM : 0 < procs.length := Nat.lt_of_le_of_lt (Nat.zero_le _) hj
  have hpick : yieldPick procs curPid =
      ((List.range procs.length).map
          (fun i => (curPid + i) % procs.length)).find?
        (fun j => yieldPred (procs.getD j dfltEntry)) := by
    rw [yieldPick, yieldGo_eq_find]
    simp only [Nat.add_zero]
  have hc : curPid % procs.length < procs.length := Nat.mod_lt _ hM
  have hcov : j ∈ (List.range procs.length).map
      (fun i => (curPid + i) % procs.length) := by
    refine List.mem_map.mpr
      ⟨(procs.length + j - curPid % procs.length) % procs.length,
        List.mem_range.mpr (Nat.mod_lt _ hM), ?_⟩
    have e1 : (curPid +
        (procs.length + j - curPid % procs.length) % procs.length) %
          procs.length
        = (curPid % procs.length +
            (procs.length + j - curPid % procs.length) % procs.length) %
          procs.length := by
      conv_lhs => rw [Nat.add_mod]
      rw [Nat.mod_eq_of_lt (Nat.mod_lt _ hM)]
    have e2 : (curPid % procs.length +
        (procs.length + j - curPid % procs.length)) % procs.length
        = (curPid % procs.length +
            (procs.length + j - curPid % procs.length) % procs.length) %
          procs.length := by
      conv_lhs => rw [Nat.add_mod]
      rw [Nat.mod_eq_of_lt hc]
    have e3 : curPid % procs.length +
        (procs.length + j - curPid % procs.length) = procs.length + j := by
      omega
    rw [e1, ← e2, e3, Nat.add_mod_left, Nat.mod_eq_of_lt hj]
  have hsome := findSomeOfMem
    (fun j => yieldPred (procs.getD j dfltEntry)) _ j hcov hpred
  obtain ⟨k, hk⟩ := Option.isSome_iff_exists.mp hsome
  have hpk : yieldPred (procs.getD k dfltEntry) = true := by
    have h2 := List.find?_some hk
    simpa using h2
  refine ⟨k, hpick.trans hk, hpk, ?_, ?_⟩
  · rw [yieldNext, hpick, hk]
    rfl
  · intro heq
    rw [heq] at hpk
    simp only [yieldPred, Bool.and_eq_true, beq_iff_eq,
      decide_eq_true_eq] at hpk
    have h3 : 0 < (procs.getD idleSlot dfltEntry).pid := hpk.2
    omega

/-- A process table with the idle process (pid 0) in slot 0 and a
runnable user process (pid 2) in slot 1, for the C5 witness. -/
def c5procs : List PEntry := [⟨0, PState.RUNNABLE⟩, ⟨2, PState.RUNNABLE⟩]

/-- C5, witness: with the shell runnable in slot 1, a yield by the idle
process selects slot 1, not the idle slot. -/
theorem C5_witness :
    (1 < c5procs.length
      ∧ yieldPred (c5procs.getD 1 dfltEntry) = true
      ∧ (c5procs.getD 0 dfltEntry).pid = 0)
    ∧ ∃ k, yieldPick c5procs 0 = some k
        ∧ yieldPred (c5procs.getD k dfltEntry) = true
        ∧ yieldNext c5procs 0 0 = k ∧ ¬ k = 0 :=
  ⟨⟨by decide, by decide, by decide⟩,
    C5_theorem c5procs 0 0 1 (by decide) (by decide) (by decide)⟩

/-- An initial kernel state with an empty file table, zeroed user
memory and no pending console input. -/
def emptySt : St := ⟨[], fun _ => 0, [], [], [], [], []⟩

/-- C6.  For every syscall handled with `scause = 8` (U-mode ecall),
the `sepc` written back before `sret` is the value read at trap entry
plus 4 (32-bit CSR arithmetic, hence `% 2^32`; equal to `sepc + 4`
outright whenever that sum does not wrap); for every other `scause`,
`handle_trap` PANICs instead of returning. -/
theorem C6_theorem (f : Frame) (s : St) (scause sepc : Nat) :
    (∀ f' s', scause = SCAUSE_ECALL →
      handle_syscall f s = SysRes.ok f' s' →
      handle_trap f s scause sepc
          = TrapRes.sret f' s' ((sepc + 4) % 4294967296)
        ∧ (sepc + 4 < 4294967296 →
            handle_trap f s scause sepc = TrapRes.sret f' s' (sepc + 4)))
    ∧ (¬ scause = SCAUSE_ECALL →
        handle_trap f s scause sepc = TrapRes.panic "unexpected trap") := by
  constructor
  · intro f' s' hc hok
    unfold handle_trap
    rw [if_pos hc, hok]
    refine ⟨rfl, fun hlt => ?_⟩
    rw [Nat.mod_eq_of_lt hlt]
  · intro hc
    unfold handle_trap
    rw [if_neg hc]

/-- A PUTCHAR trap frame for the C6 witness. -/
def c6frame : Frame := { a0 := 65, a3 := 1 }

/-- The kernel state after the C6 witness PUTCHAR syscall. -/
def c6stOut : St := { emptySt with out := [65] }

/-- C6, witness: a PUTCHAR ecall at `sepc = 0x1000000` returns through
`sret` with `sepc = 0x1000004`, and `scause = 7` PANICs. -/
theorem C6_witness :
    (8 : Nat) = SCAUSE_ECALL
    ∧ handle_syscall c6frame emptySt = SysRes.ok c6frame c6stOut
    ∧ handle_trap c6frame emptySt 8 16777216
        = TrapRes.sret c6frame c6stOut 16777220
    ∧ ¬ (7 : Nat) = SCAUSE_ECALL
    ∧ handle_trap c6frame emptySt 7 16777216
        = TrapRes.panic "unexpected trap" := by
  have hok : handle_syscall c6frame emptySt = SysRes.ok c6frame c6stOut := rfl
  refine ⟨rfl, hok, ?_, by decide,
    (C6_theorem c6frame emptySt 7 16777216).2 (by decide)⟩
  have h := ((C6_theorem c6frame emptySt 8 16777216).1 c6frame c6stOut rfl
    hok).2 (by decide)
  simpa using h

/-- C10.  A SYS_PUTCHAR syscall writes no result into the trap frame:
`handle_syscall` returns the frame unchanged (every saved register,
including the `a0` slot, keeps its value, so the `a0` restored by
`kernel_entry` on `sret` is still the character argument); the only
effect is the byte written to the console. -/
theorem C10_theorem (f : Frame) (s : St) (h : f.a3 = SYS_PUTCHAR) :
    handle_syscall f s
      = SysRes.ok f { s with out := s.out ++ [f.a0 % 256] } := by
  unfold handle_syscall
  rw [if_pos h]

/-- A successful `fs_lookup` returns an index inside the file table. -/
theorem lookupFile_lt_length (files : List File) (nm : List Nat) :
    ∀ i, lookupFile files nm = some i → i < files.length := by
  induction files with
  | nil => intro i h; cases h
  | cons a t ih =>
    intro i h
    simp only [lookupFile] at h
    by_cases hb : (a.inUse && a.name == nm) = true
    · rw [if_pos hb] at h
      cases h
      simp
    · rw [if_neg hb] at h
      cases hm2 : lookupFile t nm with
      | none => rw [hm2] at h; cases h
      | some i0 =>
        rw [hm2] at h
        cases h
        have := ih i0 hm2
        simp only [List.length_cons]
        omega

/-- Updating a list slot in range and reading it back with a default
yields the written value. -/
theorem getDSetSelf {α : Type} (l : List α) (i : Nat) (a d : α)
    (h : i < l.length) : (l.set i a).getD i d = a := by
  rw [List.getD_eq_getElem?_getD, List.getElem?_set_self]
  · simp
  · simpa using h

/-- C9.  In SYS_READFILE and SYS_WRITEFILE, `int len = f->a2`
reinterprets the length as a signed 32-bit integer, and the capacity
check compares signed.  For every call on an existing file with
`a2 >= 2^31` (negative as an `int`): the value is negative, the clamp
`len > sizeof(file->data)` does not fire, the negative value is the
length argument recorded for `memcpy`, and for SYS_WRITEFILE it is
stored into `file->size` while `f->a0 = len` stores its 32-bit
two's-complement pattern — which is `a2` itself — back to the user. -/
theorem C9_theorem (f : Frame) (s : St) (i : Nat)
    (h34 : f.a3 = SYS_READFILE ∨ f.a3 = SYS_WRITEFILE)
    (hlk : lookupFile s.files (readCStr s.mem f.a0 100) = some i)
    (hlo : 2147483648 ≤ f.a2) (hhi : f.a2 < 4294967296) :
    toSigned32 f.a2 < 0
    ∧ (if toSigned32 f.a2 > (FILE_DATA_CAP : Int)
        then (s.files.getD i dfile).size else toSigned32 f.a2)
      = toSigned32 f.a2
    ∧ resEvs (handle_syscall f s) = some (s.evs ++ [toSigned32 f.a2])
    ∧ (f.a3 = SYS_WRITEFILE →
        resFileSize i (handle_syscall f s) = some (toSigned32 f.a2))
    ∧ resA0 (handle_syscall f s) = some f.a2 := by
  have hmod : f.a2 % 4294967296 = f.a2 := Nat.mod_eq_of_lt hhi
  have hsig : toSigned32 f.a2 = (f.a2 : Int) - 4294967296 := by
    unfold toSigned32
    rw [hmod, if_neg (by omega)]
  have hneg : toSigned32 f.a2 < 0 := by
    rw [hsig]; omega
  have hcap : (FILE_DATA_CAP : Int) = 1024 := rfl
  have hclamp : ¬ toSigned32 f.a2 > (FILE_DATA_CAP : Int) := by
    rw [hsig, hcap]; omega
  have hst : storeU32 (toSigned32 f.a2) = f.a2 := by
    rw [hsig]; unfold storeU32; omega
  have hilen : i < s.files.length :=
    lookupFile_lt_length s.files (readCStr s.mem f.a0 100) i hlk
  refine ⟨hneg, if_neg hclamp, ?_, ?_, ?_⟩
  · -- memcpy length event
    rcases h34 with h3 | h3 <;>
      simp [handle_syscall, h3, SYS_PUTCHAR, SYS_GETCHAR, SYS_READFILE,
        SYS_WRITEFILE, SYS_EXIT, rwfile, hlk, if_neg hclamp, resEvs, resSt]
  · -- file size stored on WRITEFILE
    intro h4
    simp only [handle_syscall, h4, SYS_PUTCHAR, SYS_GETCHAR, SYS_READFILE,
      SYS_WRITEFILE, SYS_EXIT, rwfile, hlk, if_neg hclamp, resFileSize,
      resSt]
    norm_num
    rw [List.getElem?_set_self (show i < s.files.length by simpa using hilen)]
    rfl
  · -- a0 result
    rcases h34 with h3 | h3 <;>
      simp [handle_syscall, h3, SYS_PUTCHAR, SYS_GETCHAR, SYS_READFILE,
        SYS_WRITEFILE, SYS_EXIT, rwfile, hlk, if_neg hclamp, resA0,
        resFrame, hst]

/-- A WRITEFILE trap frame whose length argument is `0xFFFFFFFF`
(`-1` as an `int`), for the C9 witness. -/
def c9frame : Frame := { a0 := 1000, a1 := 2000, a2 := 4294967295, a3 := 4 }

/-- C9, witness: `SYS_WRITEFILE("hello.txt", buf, 0xFFFFFFFF)` on the
existing file records a `memcpy` length of `-1`, stores `-1` into
`file->size`, and returns `0xFFFFFFFF` in `a0`. -/
theorem C9_witness :
    (c9frame.a3 = SYS_READFILE ∨ c9frame.a3 = SYS_WRITEFILE)
    ∧ lookupFile c1st.files (readCStr c1st.mem c9frame.a0 100) = some 0
    ∧ 2147483648 ≤ c9frame.a2 ∧ c9frame.a2 < 4294967296
    ∧ (toSigned32 c9frame.a2 < 0
       ∧ (if toSigned32 c9frame.a2 > (FILE_DATA_CAP : Int)
            then (c1st.files.getD 0 dfile).size else toSigned32 c9frame.a2)
          = toSigned32 c9frame.a2
       ∧ resEvs (handle_syscall c9frame c1st)
          = some (c1st.evs ++ [toSigned32 c9frame.a2])
       ∧ (c9frame.a3 = SYS_WRITEFILE →
            resFileSize 0 (handle_syscall c9frame c1st)
              = some (toSigned32 c9frame.a2))
       ∧ resA0 (handle_syscall c9frame c1st) = some c9frame.a2) :=
  ⟨Or.inr rfl, by decide, by decide, by decide,
    C9_theorem c9frame c1st 0 (Or.inr rfl) (by decide) (by decide)
      (by decide)⟩

/-- C7.  A `read_write_disk` call that does not complete successfully —
the sector is out of range (`sector * SECTOR_SIZE >= capacity`, with the
capacity a whole number of sectors as set by `virtio_blk_init`), or the
device's status byte is non-zero after completion — returns with the
caller's buffer unchanged; the function returns `void`, so no error is
signaled to the caller (the `DiskResult` carries no error value, only
the log line). -/
theorem C7_theorem (cap : Nat) (dev : DevModel) (vq : Virtq) (rp : Nat)
    (req : BlkReq) (buf : Nat → Nat) (sector : Nat) (w : Bool)
    (hcap : cap % SECTOR_SIZE = 0) :
    (SECTOR_SIZE * sector ≥ cap →
      (read_write_disk cap dev vq rp req buf sector w).buf = buf)
    ∧ ((∀ d, (dev w sector d).fst ≠ 0) →
      (read_write_disk cap dev vq rp req buf sector w).buf = buf) := by
  constructor
  · intro hrange
    have e : (SECTOR_SIZE : Nat) = 512 := rfl
    have hs : sector ≥ cap / SECTOR_SIZE := by
      rw [e] at hrange hcap ⊢
      omega
    unfold read_write_disk
    rw [if_pos hs]
  · intro hdev
    by_cases hs : sector ≥ cap / SECTOR_SIZE
    · unfold read_write_disk
      rw [if_pos hs]
    · unfold read_write_disk
      rw [if_neg hs]
      dsimp only
      rw [if_pos (hdev _)]

/-- A device oracle that always reports success and echoes the request
data (as a read's payload). -/
def okDev : DevModel := fun _ _ d => (0, d)

/-- A device oracle that always fails with status byte 1. -/
def failDev : DevModel := fun _ _ _ => (1, fun _ => 0)

/-- A zeroed virtqueue for concrete runs. -/
def vq0 : Virtq := ⟨fun _ => ⟨0, 0, 0, 0⟩, 0, fun _ => 0, 0, 0, 0⟩

/-- A zeroed request buffer for concrete runs. -/
def req0 : BlkReq := ⟨0, 0, fun _ => 0, 0⟩

/-- A recognizable buffer (all bytes 7) for concrete runs. -/
def buf7 : Nat → Nat := fun _ => 7

/-- C7, witness: with a 2-sector capacity and a device that always
fails, a read of sector 0 leaves the buffer untouched. -/
theorem C7_witness :
    (1024 : Nat) % SECTOR_SIZE = 0
    ∧ (∀ d, (failDev false 0 d).fst ≠ 0)
    ∧ (read_write_disk 1024 failDev vq0 4096 req0 buf7 0 false).buf
        = buf7 :=
  ⟨rfl, fun _ => Nat.one_ne_zero,
    (C7_theorem 1024 failDev vq0 4096 req0 buf7 0 false rfl).2
      (fun _ => Nat.one_ne_zero)⟩

/-- C8.  Every in-range `read_write_disk` call builds the
three-descriptor chain exactly at slots 0, 1, 2 — d[0] the 16-byte
request header with flags NEXT and next 1; d[1] the 512-byte data
buffer with flags NEXT plus WRITE exactly when the request is a read,
next 2; d[2] the status byte, length 1, flags WRITE; slots beyond 2
untouched — then publishes: stores head index 0 into
`avail.ring[avail.index % N]` (other ring slots untouched), increments
`avail.index` by exactly 1 (mod 2^16, it is a `uint16_t`), writes the
queue index to QUEUE_NOTIFY, and increments the driver-local
`last_used_index` by exactly 1 (mod 2^16). -/
theorem C8_theorem (cap : Nat) (dev : DevModel) (vq : Virtq) (rp : Nat)
    (req : BlkReq) (buf : Nat → Nat) (sector : Nat) (w : Bool)
    (h : sector < cap / SECTOR_SIZE) :
    let r := read_write_disk cap dev vq rp req buf sector w
    r.vq.descs 0 = ⟨rp, 16, VIRTQ_DESC_F_NEXT, 1⟩
    ∧ r.vq.descs 1 = ⟨rp + BLK_REQ_DATA_OFF, SECTOR_SIZE,
        if w then VIRTQ_DESC_F_NEXT
        else VIRTQ_DESC_F_NEXT + VIRTQ_DESC_F_WRITE, 2⟩
    ∧ (r.vq.descs 2).addr = rp + BLK_REQ_STATUS_OFF
    ∧ (r.vq.descs 2).len = 1
    ∧ (r.vq.descs 2).flags = VIRTQ_DESC_F_WRITE
    ∧ (∀ j, 2 < j → r.vq.descs j = vq.descs j)
    ∧ r.vq.availRing (vq.availIndex % VIRTQ_ENTRY_NUM) = 0
    ∧ (∀ k, ¬ k = vq.availIndex % VIRTQ_ENTRY_NUM →
        r.vq.availRing k = vq.availRing k)
    ∧ r.vq.availIndex = (vq.availIndex + 1) % 65536
    ∧ r.notifies = [vq.queueIndex]
    ∧ r.vq.lastUsedIndex = (vq.lastUsedIndex + 1) % 65536 := by
  have hns : ¬ sector ≥ cap / SECTOR_SIZE := not_le.mpr h
  dsimp only
  cases w <;>
    (unfold read_write_disk
     rw [if_neg hns]
     dsimp only
     simp only [apply_ite DiskResult.vq, apply_ite DiskResult.notifies,
       ite_self]
     refine ⟨?_, ?_, ?_, ?_, ?_, ?_, ?_, ?_, ?_, ?_, ?_⟩ <;>
       first
       | trivial
       | rfl
       | (intro j hj
          rw [if_neg (by omega : ¬ j = 0), if_neg (by omega : ¬ j = 1),
            if_neg (by omega : ¬ j = 2)])
       | (intro k hk
          rw [if_neg hk]))

/-- C8, witness: the descriptor chain and publish for a concrete
successful read of sector 0. -/
theorem C8_witness :
    (0 : Nat) < 1024 / SECTOR_SIZE
    ∧ (let r := read_write_disk 1024 okDev vq0 4096 req0 buf7 0 false
      r.vq.descs 0 = ⟨4096, 16, VIRTQ_DESC_F_NEXT, 1⟩
      ∧ r.vq.descs 1 = ⟨4096 + BLK_REQ_DATA_OFF, SECTOR_SIZE,
          if false then VIRTQ_DESC_F_NEXT
          else VIRTQ_DESC_F_NEXT + VIRTQ_DESC_F_WRITE, 2⟩
      ∧ (r.vq.descs 2).addr = 4096 + BLK_REQ_STATUS_OFF
      ∧ (r.vq.descs 2).len = 1
      ∧ (r.vq.descs 2).flags = VIRTQ_DESC_F_WRITE
      ∧ (∀ j, 2 < j → r.vq.descs j = vq0.descs j)
      ∧ r.vq.availRing (vq0.availIndex % VIRTQ_ENTRY_NUM) = 0
      ∧ (∀ k, ¬ k = vq0.availIndex % VIRTQ_ENTRY_NUM →
          r.vq.availRing k = vq0.availRing k)
      ∧ r.vq.availIndex = (vq0.availIndex + 1) % 65536
      ∧ r.notifies = [vq0.queueIndex]
      ∧ r.vq.lastUsedIndex = (vq0.lastUsedIndex + 1) % 65536) :=
  ⟨by decide, C8_theorem 1024 okDev vq0 4096 req0 buf7 0 false (by decide)⟩

/-- A PUTCHAR trap frame for the C10 witness. -/
def c10frame : Frame := { a0 := 66, a3 := 1 }

/-- C10, witness: PUTCHAR of the byte 66 leaves the frame untouched. -/
theorem C10_witness :
    c10frame.a3 = SYS_PUTCHAR
    ∧ handle_syscall c10frame emptySt
        = SysRes.ok c10frame
            { emptySt with out := emptySt.out ++ [c10frame.a0 % 256] } :=
  ⟨rfl, C10_theorem c10frame emptySt rfl⟩


